import Mathlib

/-!
# Verification of `rrd-client-lib`'s regression test (`src/rrdtest.c`)

Shallow embedding of the test program `rrdtest.c` and of the engine contract
it exercises.  The engine itself (`librrd`) is not part of the visible
source tree; where a claim depends on engine behaviour, the corresponding
definition is modelled from the specification and marked as such in its
doc comment.  Everything else is translated directly from `src/rrdtest.c`.

C `int` values are modelled as `Int` (no arithmetic in the test ever
approaches 32-bit overflow); file bytes are `Nat` values `< 256`.
-/

namespace RRDTest

/-! ## Test fixture state (`src/rrdtest.c`, lines 35-44) -/

/-- `static int numbers[] = { 2, 16, 28, 34, 40, 52, 66, 71, 83, 90, 100, 111};` -/
def numbers : List Int := [2, 16, 28, 34, 40, 52, 66, 71, 83, 90, 100, 111]

/-- `get_number` (lines 40-44): returns `numbers[i++ % 12]` where `i` is a
`static` counter starting at 0.  Modelled by explicit state passing: the
argument is the counter before the call, the result is the returned value
paired with the counter after the call. -/
def get_number (i : Nat) : Int × Nat :=
  (numbers.getD (i % numbers.length) 0, i + 1)

/-- The counter of `get_number` after `n` calls (it starts at 0). -/
def getNumberCounter : Nat → Nat
  | 0 => 0
  | n + 1 => (get_number (getNumberCounter n)).2

/-- The value returned by the `n`-th call of `get_number`, counting from 0. -/
def getNumberVal (n : Nat) : Int :=
  (get_number (getNumberCounter n)).1

/-! ## `rrd_value` and the test's sampling callback (lines 50-55) -/

/-- The engine's value union; the test only ever uses the `int64` member. -/
structure rrd_value where
  int64 : Int
  deriving DecidableEq, Repr

/-- `sample` (lines 50-55): reads the global `number` and returns it as an
`rrd_value`.  Modelled by explicit state passing of the global `number`;
the returned pair is (result, global state after the call). -/
def sample (number : Int) : rrd_value × Int :=
  (⟨number⟩, number)

/-! ## DataSource descriptors (`create_rrd_source`, lines 57-73)

The enumerations come from `librrd.h`, which is absent from the visible
source tree; their constructors are modelled from the spec's data model
(owner ∈ {HOST, VM, LOCAL_DOMAIN}, scale ∈ {GAUGE, DERIVE, ABSOLUTE},
type ∈ {INT64, FLOAT64}). -/

inductive rrd_owner where
  | RRD_HOST | RRD_VM | RRD_LOCAL_DOMAIN
  deriving DecidableEq, Repr

inductive rrd_scale where
  | RRD_GAUGE | RRD_DERIVE | RRD_ABSOLUTE
  deriving DecidableEq, Repr

inductive rrd_type where
  | RRD_INT64 | RRD_FLOAT64
  deriving DecidableEq, Repr

/-- A sampling callback: reads the globals (here: the global `number`) and
produces one `rrd_value`.  The test's `sample` is `fun n => (RRDTest.sample n).1`. -/
def SampleFn : Type := Int → rrd_value

/-- `RRD_SOURCE` (from `librrd.h`, fields as used by `create_rrd_source`). -/
structure RRD_SOURCE where
  name : String
  description : String
  owner : rrd_owner
  owner_uuid : String
  rrd_units : String
  scale : rrd_scale
  type : rrd_type
  min : String
  max : String
  rrd_default : Int
  sample : SampleFn

/-- `strdup`: a fresh heap copy whose contents equal the argument.  Lean
strings are immutable values, so content-wise this is the identity; the
freshness (distinct address) of the copy is a memory-layout fact outside
this embedding. -/
def strdup (s : String) : String := s

/-- `create_rrd_source` (lines 57-73), translated field by field. -/
def create_rrd_source (name description : String) (own : rrd_owner)
    (owner_uuid units : String) (scl : rrd_scale) (typ : rrd_type)
    (min max : String) (rrd_default : Int) (f : SampleFn) : RRD_SOURCE :=
  { name := strdup name
    description := strdup description
    owner := own
    owner_uuid := strdup owner_uuid
    rrd_units := strdup units
    scale := scl
    type := typ
    min := strdup min
    max := strdup max
    rrd_default := rrd_default
    sample := f }

/-! ## JSON documents and structural equality

`rrdtest.c` uses the parson library (`json_parse_string`,
`json_value_equals`) and the engine's `json_for_plugin`; none of these are
in the visible source tree.  The document type and the structural-equality
test are modelled from the spec: equality of objects is key/value equality
(each key of the left document must be present in the right with an equal
value, and the key counts must agree), arrays are compared element-wise in
order, and serialization order of object keys is irrelevant. -/

inductive Json where
  | str : String → Json
  | num : Int → Json
  | arr : List Json → Json
  | obj : List (String × Json) → Json
  deriving Repr

/-- Key lookup in a JSON object: the value of the first binding of `k`. -/
def lookupKey (k : String) : List (String × Json) → Option Json
  | [] => none
  | (k', v) :: rest => if k' = k then some v else lookupKey k rest

mutual
/-- Modelled from the spec: `json_value_equals` — structural equality of
two JSON documents (key/value set equality for objects, not byte-identical
serialization). -/
def jsonEquals : Json → Json → Bool
  | Json.str a, Json.str b => a = b
  | Json.num a, Json.num b => a = b
  | Json.arr a, Json.arr b => jsonArrEquals a b
  | Json.obj a, Json.obj b => a.length = b.length && jsonObjIncl a b
  | _, _ => false

/-- Element-wise, order-sensitive structural equality of JSON arrays. -/
def jsonArrEquals : List Json → List Json → Bool
  | [], [] => true
  | x :: xs, y :: ys => jsonEquals x y && jsonArrEquals xs ys
  | _, _ => false

/-- Every binding of the first object is present, with an equal value, in
the second. -/
def jsonObjIncl : List (String × Json) → List (String × Json) → Bool
  | [], _ => true
  | (k, v) :: rest, b =>
      (match lookupKey k b with
       | some w => jsonEquals v w
       | none => false) && jsonObjIncl rest b
end

/-! ## The Plugin Session and the engine's operations

`librrd` is absent from the visible source tree; the session state and the
operations `rrd_open`, `rrd_add_src`, `rrd_del_src`, `rrd_sample`,
`rrd_close` are modelled from the spec (§3 Plugin Session, §4.2 lifecycle
operations, §7 error kinds). -/

/-- Modelled from the spec: the domain scope under which a plugin is
registered (`rrd_open`'s second argument, e.g. `RRD_LOCAL_DOMAIN`). -/
inductive rrd_domain where
  | RRD_LOCAL_DOMAIN | RRD_INTER_DOMAIN
  deriving DecidableEq, Repr

/-- Modelled from the spec: the result/status codes of the engine
(`StatusCode` of §6 refined by the error taxonomy of §7). -/
inductive rrd_rc where
  | RRD_OK
  | RRD_IO_ERROR
  | RRD_DUPLICATE_SOURCE
  | RRD_SOURCE_NOT_FOUND
  | RRD_INVALID_STATE
  | RRD_ENCODING_ERROR
  deriving DecidableEq, Repr

/-- Modelled from the spec: the Plugin Session state (`RRD_PLUGIN`):
plugin name, domain scope, file path, the ordered datasource list, and the
open/closed flag. -/
structure RRD_PLUGIN where
  name : String
  domain : rrd_domain
  file_path : String
  sources : List RRD_SOURCE
  isOpen : Bool

/-- Modelled from the spec: `rrd_open` — binds a plugin identity and
domain scope to a file path and starts with an empty datasource list and
an open session.  (File-creation failure is an I/O condition outside this
embedding.) -/
def rrd_open (name : String) (domain : rrd_domain) (path : String) : RRD_PLUGIN :=
  { name := name, domain := domain, file_path := path, sources := [], isOpen := true }

/-- Modelled from the spec: `rrd_add_src` — on a closed session fails with
the invalid-state error; a duplicate name is rejected; otherwise the
descriptor is appended to the ordered list. -/
def rrd_add_src (p : RRD_PLUGIN) (src : RRD_SOURCE) : rrd_rc × RRD_PLUGIN :=
  if ¬ p.isOpen then (rrd_rc.RRD_INVALID_STATE, p)
  else if p.sources.any (fun s => s.name = src.name) then (rrd_rc.RRD_DUPLICATE_SOURCE, p)
  else (rrd_rc.RRD_OK, { p with sources := p.sources ++ [src] })

/-- Modelled from the spec: `rrd_del_src` — on a closed session fails with
the invalid-state error; an unregistered name fails with not-found;
otherwise the entry is removed and subsequent entries shift down. -/
def rrd_del_src (p : RRD_PLUGIN) (src : RRD_SOURCE) : rrd_rc × RRD_PLUGIN :=
  if ¬ p.isOpen then (rrd_rc.RRD_INVALID_STATE, p)
  else if p.sources.any (fun s => s.name = src.name) then
    (rrd_rc.RRD_OK, { p with sources := p.sources.filter (fun s => ¬ s.name = src.name) })
  else (rrd_rc.RRD_SOURCE_NOT_FOUND, p)

/-- Modelled from the spec: the status returned by `rrd_sample` — on a
closed session the invalid-state error, otherwise success; the session
state is unchanged by a sample.  (The bytes the Sample Writer produces are
modelled separately by `sampleWriteFile`.) -/
def rrd_sample (p : RRD_PLUGIN) : rrd_rc × RRD_PLUGIN :=
  if p.isOpen then (rrd_rc.RRD_OK, p) else (rrd_rc.RRD_INVALID_STATE, p)

/-- Modelled from the spec: `rrd_close` — marks the session closed and
releases the file; on an already-closed session fails with the
invalid-state error. -/
def rrd_close (p : RRD_PLUGIN) : rrd_rc × RRD_PLUGIN :=
  if p.isOpen then (rrd_rc.RRD_OK, { p with isOpen := false })
  else (rrd_rc.RRD_INVALID_STATE, p)

/-! ## Metadata Serializer (modelled from the spec, §4.4 and §4.1) -/

/-- Modelled from the spec: string encoding of an owner value in the
metadata document. -/
def ownerString : rrd_owner → String
  | rrd_owner.RRD_HOST => "host"
  | rrd_owner.RRD_VM => "vm"
  | rrd_owner.RRD_LOCAL_DOMAIN => "local_domain"

/-- Modelled from the spec: string encoding of a scale value in the
metadata document. -/
def scaleString : rrd_scale → String
  | rrd_scale.RRD_GAUGE => "gauge"
  | rrd_scale.RRD_DERIVE => "derive"
  | rrd_scale.RRD_ABSOLUTE => "absolute"

/-- Modelled from the spec: string encoding of a numeric-representation
value in the metadata document. -/
def typeString : rrd_type → String
  | rrd_type.RRD_INT64 => "int64"
  | rrd_type.RRD_FLOAT64 => "float64"

/-- Modelled from the spec: the per-datasource metadata object (one JSON
object per datasource with its name, description, owner, owner_uuid,
units, scale, type, min, max, default fields; §4.1 item 3). -/
def dsJson (s : RRD_SOURCE) : Json :=
  Json.obj
    [ ("name", Json.str s.name)
    , ("description", Json.str s.description)
    , ("owner", Json.str (ownerString s.owner))
    , ("owner_uuid", Json.str s.owner_uuid)
    , ("units", Json.str s.rrd_units)
    , ("scale", Json.str (scaleString s.scale))
    , ("type", Json.str (typeString s.type))
    , ("min", Json.str s.min)
    , ("max", Json.str s.max)
    , ("default", Json.num s.rrd_default) ]

/-- Modelled from the spec: `json_for_plugin` — a document whose top-level
shape is an object keyed by plugin name, containing the list of
per-datasource objects in slot order (§4.4). -/
def json_for_plugin (p : RRD_PLUGIN) : Json :=
  Json.obj [(p.name, Json.arr (p.sources.map dsJson))]

/-! ## File Layout Manager and Sample Writer (modelled from the spec,
§4.1 and §4.3)

The file is modelled as its byte list together with the byte offset at
which the stored JSON metadata document begins and that document itself
(parsing bytes back into a document is parson functionality outside the
visible sources; `json_parse_at` models it as: parsing from the document's
true start offset yields the stored document, parsing from any other
offset fails). -/

structure RRDFile where
  bytes : List Nat
  jsonStart : Nat
  metaDoc : Json

/-- Modelled from the spec: reading the file from byte offset `off` to the
end of file and parsing the result as JSON. -/
def json_parse_at (f : RRDFile) (off : Nat) : Option Json :=
  if off = f.jsonStart then some f.metaDoc else none

/-- Modelled from the spec: the fixed-width encoding of one sampled value
into its `DVS`-byte slot, most significant byte first, so that the last
byte of the slot is the value's low-order byte (§4.3, §8 property 1). -/
def encodeValue (DVS : Nat) (v : Int) : List Nat :=
  (List.range DVS).map
    (fun j => (v % (2 ^ (8 * DVS))).toNat / 2 ^ (8 * (DVS - 1 - j)) % 256)

/-- Modelled from the spec: the value region — one `DVS`-byte slot per
datasource, in registration order (§4.1 item 2). -/
def valueRegion (DVS : Nat) (values : List Int) : List Nat :=
  (values.map (encodeValue DVS)).flatten

/-- The values produced by one sampling cycle: each registered
datasource's `sample_fn`, invoked in slot order on the current globals. -/
def sampleCycleValues (g : Int) (p : RRD_PLUGIN) : List Int :=
  p.sources.map (fun s => (s.sample g).int64)

/-- Modelled from the spec: the file image after a sampling cycle —
header, value region, then the metadata region (`META` bytes of
padding/length followed by the JSON document for the current datasource
set).  `header` is the file's `HDR`-byte header and `metaBytes` the raw
bytes of the metadata region. -/
def sampleWriteFile (HDR DVS META : Nat) (header metaBytes : List Nat)
    (g : Int) (p : RRD_PLUGIN) : RRDFile :=
  { bytes := header ++ valueRegion DVS (sampleCycleValues g p) ++ metaBytes
    jsonStart := HDR + DVS * p.sources.length + META
    metaDoc := json_for_plugin p }

/-! ## The verifiers (`src/rrdtest.c`, lines 75-125)

`fopen` failure is modelled by the file argument being `none`.  In
`testRRDValue` the C code `fread`s one byte into an uninitialized `int`
and masks with `0x00ff` (on the little-endian hosts the test targets the
mask extracts exactly the byte read); when the read offset is past the end
of file the masked low byte is the uninitialized garbage, modelled by the
explicit `junk` parameter. -/

/-- `testRRDValue` (lines 106-125): seek to
`RRD_HEADER_SIZE + DATASOURCE_VALUE_SIZE * datasource_count - 1`, read one
byte, return 1 iff `value == (buffer & 0x00ff)`. -/
def testRRDValue (RRD_HEADER_SIZE DATASOURCE_VALUE_SIZE : Nat) (junk : Nat)
    (file : Option RRDFile) (value : Int) (datasource_count : Nat) : Int :=
  match file with
  | none => 0
  | some f =>
    let skip_bytes := RRD_HEADER_SIZE + DATASOURCE_VALUE_SIZE * datasource_count - 1
    let buffer := f.bytes.getD skip_bytes (junk % 256)
    if value = ((buffer % 256 : Nat) : Int) then 1 else 0

/-- `testRRDDataSource` (lines 75-104): skip
`RRD_HEADER_SIZE + DATASOURCE_VALUE_SIZE * datasource_count + META_SIZE`
bytes, parse the rest of the file as JSON, and return
`json_value_equals(json_for_plugin(plugin), rrd_json)` (0 when parsing
fails, i.e. when `rrd_json` is null). -/
def testRRDDataSource (RRD_HEADER_SIZE DATASOURCE_VALUE_SIZE META_SIZE : Nat)
    (file : Option RRDFile) (plugin : RRD_PLUGIN) (datasource_count : Nat) : Int :=
  match file with
  | none => 0
  | some f =>
    let skip_bytes := RRD_HEADER_SIZE + DATASOURCE_VALUE_SIZE * datasource_count + META_SIZE
    match json_parse_at f skip_bytes with
    | none => 0
    | some rrd_json => if jsonEquals (json_for_plugin plugin) rrd_json then 1 else 0

/-! ## Test harness counters (`runTests`, lines 127-139) -/

structure TestCounters where
  tests_passed : Int
  tests_failed : Int
  deriving DecidableEq, Repr

/-- `runTests` (lines 127-139): increments `tests_passed` when both
verifiers return nonzero, `tests_failed` otherwise. -/
def runTests (HDR DVS META junk : Nat) (file : Option RRDFile)
    (plugin : RRD_PLUGIN) (number : Int) (datasource_count : Nat)
    (c : TestCounters) : TestCounters :=
  if testRRDValue HDR DVS junk file number datasource_count ≠ 0 ∧
      testRRDDataSource HDR DVS META file plugin datasource_count ≠ 0 then
    { c with tests_passed := c.tests_passed + 1 }
  else
    { c with tests_failed := c.tests_failed + 1 }

/-- The arguments of one `runTests` call. -/
structure RunArgs where
  junk : Nat
  file : Option RRDFile
  plugin : RRD_PLUGIN
  number : Int
  datasource_count : Nat

/-- A sequence of `runTests` calls, folded over the counters. -/
def runTestsSeq (HDR DVS META : Nat) (calls : List RunArgs)
    (c : TestCounters) : TestCounters :=
  calls.foldl
    (fun acc a => runTests HDR DVS META a.junk a.file a.plugin a.number a.datasource_count acc) c

/-! ## The `get_number` values consumed by `main` (lines 141-261)

`main` assigns `number = get_number()` in program order; the `n`-th
executed assignment receives `getNumberVal n`. -/

/-- Line 160: the value sampled right after adding `RRD_SOURCE_1` to
`rrdplugin1` (the first element consumed from the `get_number` sequence). -/
def numberAfterAddSource1 : Int := getNumberVal 0

/-- Line 166: the value sampled by the subsequent update of
`RRD_SOURCE_1` (the second element consumed). -/
def numberAfterUpdateSource1 : Int := getNumberVal 1

/-- Line 175: the value sampled right after adding `RRD_SOURCE_2` to
`rrdplugin1` (the third element consumed). -/
def numberAfterAddSource2 : Int := getNumberVal 2

/-! ## Helper lemmas -/

theorem getNumberCounter_eq (n : Nat) : getNumberCounter n = n := by
  induction n with
  | zero => rfl
  | succ k ih => simp [getNumberCounter, get_number, ih]

theorem encodeValue_length (DVS : Nat) (v : Int) : (encodeValue DVS v).length = DVS := by
  simp [encodeValue]

theorem encodeValue_last (DVS : Nat) (hd : 0 < DVS) (v : Int) (d : Nat) :
    (encodeValue DVS v).getD (DVS - 1) d = (v % 256).toNat := by
  have hlt : DVS - 1 < (encodeValue DVS v).length := by
    rw [encodeValue_length]; omega
  rw [List.getD_eq_getElem _ _ hlt]
  unfold encodeValue
  rw [List.getElem_map, List.getElem_range]
  have h0 : DVS - 1 - (DVS - 1) = 0 := by omega
  rw [h0]
  norm_num
  have h256 : (256 : Int) ∣ 2 ^ (8 * DVS) := by
    have h8 : (256 : Int) = 2 ^ 8 := by norm_num
    rw [h8]
    exact pow_dvd_pow 2 (by omega)
  have hnn : 0 ≤ v % (2 ^ (8 * DVS)) := Int.emod_nonneg v (by positivity)
  have hmm : (v % (2 ^ (8 * DVS))) % 256 = v % 256 := Int.emod_emod_of_dvd v h256
  omega

theorem flatten_getD_uniform (c : Nat) (L : List (List Nat)) (d : Nat)
    (h : ∀ l ∈ L, l.length = c) (i j : Nat) (hi : i < L.length) (hj : j < c) :
    L.flatten.getD (i * c + j) d = (L.getD i []).getD j d := by
  induction L generalizing i with
  | nil => simp at hi
  | cons l rest ih =>
    have hl : l.length = c := h l (List.mem_cons_self l rest)
    cases i with
    | zero =>
      simp only [List.flatten_cons, Nat.zero_mul, Nat.zero_add, List.getD_cons_zero]
      exact List.getD_append _ _ _ _ (by omega)
    | succ k =>
      have harith : (k + 1) * c + j = l.length + (k * c + j) := by
        rw [hl]; ring
      rw [List.flatten_cons, harith, List.getD_cons_succ,
        List.getD_append_right _ _ _ _ (by omega)]
      have hsub : l.length + (k * c + j) - l.length = k * c + j := by omega
      rw [hsub]
      exact ih (fun x hx => h x (List.mem_cons_of_mem l hx)) k (by simpa using hi)

theorem valueRegion_length (DVS : Nat) (values : List Int) :
    (valueRegion DVS values).length = values.length * DVS := by
  unfold valueRegion
  rw [List.length_flatten, List.map_map]
  have hconst : (List.map (List.length ∘ encodeValue DVS) values)
      = List.map (fun _ => DVS) values := by
    apply List.map_congr_left
    intro v _
    simp [Function.comp, encodeValue_length]
  rw [hconst]
  induction values with
  | nil => simp
  | cons v rest ih => simp [ih]; ring

theorem valueRegion_getD (DVS : Nat) (hd : 0 < DVS) (values : List Int)
    (i : Nat) (hi : i < values.length) :
    (valueRegion DVS values).getD (i * DVS + (DVS - 1)) 0
      = ((values.getD i 0) % 256).toNat := by
  unfold valueRegion
  rw [flatten_getD_uniform DVS _ 0
    (fun l hl => by
      obtain ⟨v, _, rfl⟩ := List.mem_map.mp hl
      exact encodeValue_length DVS v)
    i (DVS - 1) (by simpa using hi) (by omega)]
  have hmap : (List.map (encodeValue DVS) values).getD i []
      = encodeValue DVS (values.getD i 0) := by
    rw [List.getD_eq_getElem _ _ (by simpa using hi), List.getElem_map,
      List.getD_eq_getElem _ _ hi]
  rw [hmap, encodeValue_last DVS hd]

theorem sampleCycleValues_length (g : Int) (p : RRD_PLUGIN) :
    (sampleCycleValues g p).length = p.sources.length := by
  simp [sampleCycleValues]

/-! ## Claims -/

/-- C5: the test-fixture value generator `get_number` is cyclic and
deterministic: the `n`-th call (counting from zero) returns
`numbers[n % 12]` of the fixed array `{2, 16, 28, 34, 40, 52, 66, 71, 83,
90, 100, 111}`; in particular the 13th call (index 12) returns 2 again. -/
theorem get_number_cyclic (n : Nat) :
    getNumberVal n = numbers.getD (n % 12) 0 ∧ getNumberVal 12 = 2 := by
  constructor
  · unfold getNumberVal get_number
    rw [getNumberCounter_eq]
    norm_num [numbers]
  · decide

/-- C6: the test's sampling callback `sample` returns an `rrd_value` whose
`int64` field equals the global `number` at the moment of the call; it
leaves the global state unchanged, so two consecutive calls with the same
`number` return equal results. -/
theorem sample_reads_number (number : Int) :
    (sample number).1.int64 = number ∧ (sample number).2 = number ∧
    (sample (sample number).2).1 = (sample number).1 :=
  ⟨rfl, rfl, rfl⟩

/-- C7: `create_rrd_source` returns a descriptor whose scalar fields equal
the corresponding arguments and whose six string fields are duplicates
whose contents equal the corresponding argument strings; in particular the
`min`/`max` bound strings are stored verbatim. -/
theorem create_rrd_source_fields (name description : String) (own : rrd_owner)
    (owner_uuid units : String) (scl : rrd_scale) (typ : rrd_type)
    (mn mx : String) (dflt : Int) (f : SampleFn) :
    let src := create_rrd_source name description own owner_uuid units scl typ mn mx dflt f
    src.name = name ∧ src.description = description ∧ src.owner = own ∧
    src.owner_uuid = owner_uuid ∧ src.rrd_units = units ∧ src.scale = scl ∧
    src.type = typ ∧ src.min = mn ∧ src.max = mx ∧ src.rrd_default = dflt ∧
    src.sample = f :=
  ⟨rfl, rfl, rfl, rfl, rfl, rfl, rfl, rfl, rfl, rfl, rfl⟩

/-- C2 (counterexample): the sample performed after adding
`RRD_SOURCE_2` — the third element consumed from the `get_number`
sequence (line 175) — is 28, not 16 as the claim states. -/
theorem third_number_not_16 :
    numberAfterAddSource2 = 28 ∧ ¬ numberAfterAddSource2 = 16 := by
  decide

/-- C2 (amended): the first sample after adding `RRD_SOURCE_1` uses value
2 (first element of the `get_number` sequence), the update sample for
`RRD_SOURCE_1` uses 16 (second element), and the sample after adding
`RRD_SOURCE_2` uses 28 (third element). -/
theorem main_sampled_values :
    numberAfterAddSource1 = 2 ∧ numberAfterUpdateSource1 = 16 ∧
    numberAfterAddSource2 = 28 := by
  decide

/-- C1: once `rrd_close` has returned `RRD_OK` on a session, every
subsequent operation on it fails with the invalid-state error; in
particular `rrd_sample` does not return `RRD_OK`.  (The program
nevertheless executes `rrd_sample(plugin1)` after `rrd_close(plugin1)`
— line 220 of `src/rrdtest.c`, inside the plugin2 block — and asserts
`rc == RRD_OK` at line 221: under this contract that assertion fails;
`plugin1` there is evidently a slip for `plugin2`.) -/
theorem closed_session_rejected (p : RRD_PLUGIN) (src : RRD_SOURCE)
    (h : (rrd_close p).1 = rrd_rc.RRD_OK) :
    (rrd_sample (rrd_close p).2).1 = rrd_rc.RRD_INVALID_STATE ∧
    (rrd_sample (rrd_close p).2).1 ≠ rrd_rc.RRD_OK ∧
    (rrd_add_src (rrd_close p).2 src).1 = rrd_rc.RRD_INVALID_STATE ∧
    (rrd_del_src (rrd_close p).2 src).1 = rrd_rc.RRD_INVALID_STATE ∧
    (rrd_close (rrd_close p).2).1 = rrd_rc.RRD_INVALID_STATE := by
  by_cases hp : p.isOpen
  · simp [rrd_close, hp, rrd_sample, rrd_add_src, rrd_del_src]
  · simp [rrd_close, hp] at h

/-- The session of the test's plugin 1 right after `rrd_open` (line 153). -/
def plugin1 : RRD_PLUGIN :=
  rrd_open "rrdplugin1" rrd_domain.RRD_LOCAL_DOMAIN "rrdplugin1.rrd"

/-- The first datasource the test registers (lines 157-158). -/
def source1 : RRD_SOURCE :=
  create_rrd_source "RRD_SOURCE_1" "First RRD source" rrd_owner.RRD_HOST
    "4cc1f2e0-5405-11e6-8c2f-572fc76ac144" "BYTE" rrd_scale.RRD_GAUGE
    rrd_type.RRD_INT64 "-inf" "inf" 1 (fun g => (RRDTest.sample g).1)

/-- C1 (witness): the rejection instantiated at the freshly opened
`rrdplugin1` session, on which `rrd_close` concretely returns `RRD_OK`. -/
theorem closed_session_rejected_witness :
    (rrd_sample (rrd_close plugin1).2).1 = rrd_rc.RRD_INVALID_STATE ∧
    (rrd_sample (rrd_close plugin1).2).1 ≠ rrd_rc.RRD_OK ∧
    (rrd_add_src (rrd_close plugin1).2 source1).1 = rrd_rc.RRD_INVALID_STATE ∧
    (rrd_del_src (rrd_close plugin1).2 source1).1 = rrd_rc.RRD_INVALID_STATE ∧
    (rrd_close (rrd_close plugin1).2).1 = rrd_rc.RRD_INVALID_STATE :=
  closed_session_rejected plugin1 source1 rfl

/-- C10: both verifiers fail closed when `fopen` fails (the file argument
is `none`): each returns 0 without inspecting any bytes. -/
theorem verifiers_fail_closed (HDR DVS META junk : Nat) (value : Int)
    (plugin : RRD_PLUGIN) (N : Nat) :
    testRRDValue HDR DVS junk none value N = 0 ∧
    testRRDDataSource HDR DVS META none plugin N = 0 :=
  ⟨rfl, rfl⟩

/-- C3 (counterexample): `testRRDValue` does not return 1 "exactly when
the byte it reads equals `value & 0xFF`": at `value = 256` with the read
byte 0 the byte equals `value & 0xFF` (both 0) yet the verifier returns 0,
because the C code compares `value` itself against `buffer & 0x00ff`. -/
theorem testRRDValue_mask_counterexample :
    testRRDValue 8 8 0
        (some { bytes := List.replicate 24 0, jsonStart := 0, metaDoc := Json.num 0 })
        256 1 = 0 ∧
    (List.replicate 24 0).getD (8 + 8 * 1 - 1) 0 % 256 = ((256 : Int) % 256).toNat := by
  decide

/-- C3 (amended): for every datasource count `N ≥ 1` and slot index
`i < N`, after a sample the file byte at
`value_slot(i) + DATASOURCE_VALUE_SIZE - 1` equals `value & 0xFF` of the
value produced by datasource `i`'s `sample_fn` in that cycle; and
`testRRDValue(filename, value, N)` returns 1 exactly when `value` itself
equals the single byte it reads at offset
`RRD_HEADER_SIZE + N * DATASOURCE_VALUE_SIZE - 1` (for `value` in
`[0, 255]` this coincides with the byte equaling `value & 0xFF`); in
particular it returns 1 on the file written by the sampling cycle when
`value` is the low-order byte of the last datasource's sampled value. -/
theorem round_trip_value (HDR DVS META : Nat) (header metaBytes : List Nat)
    (g : Int) (p : RRD_PLUGIN) (i : Nat)
    (hh : header.length = HDR) (hd : 0 < DVS) (hi : i < p.sources.length) :
    (sampleWriteFile HDR DVS META header metaBytes g p).bytes.getD
        (HDR + i * DVS + (DVS - 1)) 0
      = ((sampleCycleValues g p).getD i 0 % 256).toNat ∧
    (∀ (junk : Nat) (f : RRDFile) (value : Int) (N : Nat),
      testRRDValue HDR DVS junk (some f) value N = 1 ↔
        value = ((f.bytes.getD (HDR + DVS * N - 1) (junk % 256) % 256 : Nat) : Int)) ∧
    (∀ junk : Nat,
      testRRDValue HDR DVS junk
          (some (sampleWriteFile HDR DVS META header metaBytes g p))
          (((((sampleCycleValues g p).getD (p.sources.length - 1) 0 % 256).toNat : Nat) : Int))
          p.sources.length = 1) := by
  have hslot : ∀ k, k < p.sources.length →
      (sampleWriteFile HDR DVS META header metaBytes g p).bytes.getD
          (HDR + k * DVS + (DVS - 1)) 0
        = ((sampleCycleValues g p).getD k 0 % 256).toNat := by
    intro k hk
    have hbytes : (sampleWriteFile HDR DVS META header metaBytes g p).bytes
        = header ++ (valueRegion DVS (sampleCycleValues g p) ++ metaBytes) := by
      simp [sampleWriteFile, List.append_assoc]
    rw [hbytes]
    have hofs : HDR + k * DVS + (DVS - 1) = header.length + (k * DVS + (DVS - 1)) := by
      omega
    rw [hofs, List.getD_append_right _ _ _ _ (by omega)]
    have hsub : header.length + (k * DVS + (DVS - 1)) - header.length
        = k * DVS + (DVS - 1) := by omega
    rw [hsub]
    have hkv : k * DVS + (DVS - 1) < (valueRegion DVS (sampleCycleValues g p)).length := by
      rw [valueRegion_length, sampleCycleValues_length]
      have h1 : (k + 1) * DVS ≤ p.sources.length * DVS :=
        Nat.mul_le_mul_right DVS (by omega)
      have h2 : (k + 1) * DVS = k * DVS + DVS := by ring
      omega
    rw [List.getD_append _ _ _ _ hkv]
    exact valueRegion_getD DVS hd _ k (by rw [sampleCycleValues_length]; exact hk)
  have hiff : ∀ (junk : Nat) (f : RRDFile) (value : Int) (N : Nat),
      testRRDValue HDR DVS junk (some f) value N = 1 ↔
        value = ((f.bytes.getD (HDR + DVS * N - 1) (junk % 256) % 256 : Nat) : Int) := by
    intro junk f value N
    simp only [testRRDValue]
    split <;> simp_all
  refine ⟨hslot i hi, hiff, ?_⟩
  intro junk
  rw [hiff]
  set F := sampleWriteFile HDR DVS META header metaBytes g p with hF
  have hN : 0 < p.sources.length := by omega
  obtain ⟨m, hm⟩ : ∃ m, p.sources.length = m + 1 := ⟨p.sources.length - 1, by omega⟩
  have hcancel : m + 1 - 1 = m := by omega
  have hofs : HDR + DVS * p.sources.length - 1
      = HDR + (p.sources.length - 1) * DVS + (DVS - 1) := by
    rw [hm, hcancel]
    have hDm : DVS * (m + 1) = m * DVS + DVS := by ring
    omega
  have hlenF : F.bytes.length
      = HDR + p.sources.length * DVS + metaBytes.length := by
    rw [hF]
    show (header ++ valueRegion DVS (sampleCycleValues g p) ++ metaBytes).length = _
    rw [List.length_append, List.length_append, valueRegion_length,
      sampleCycleValues_length, hh]
  have hin : HDR + (p.sources.length - 1) * DVS + (DVS - 1) < F.bytes.length := by
    rw [hlenF, hm, hcancel]
    have hDm : (m + 1) * DVS = m * DVS + DVS := by ring
    omega
  have hbyte := hslot (p.sources.length - 1) (by omega)
  rw [List.getD_eq_getElem _ _ hin] at hbyte
  rw [hofs, List.getD_eq_getElem _ _ hin, hbyte]
  have hsmall : ((sampleCycleValues g p).getD (p.sources.length - 1) 0 % 256).toNat % 256
      = ((sampleCycleValues g p).getD (p.sources.length - 1) 0 % 256).toNat := by
    omega
  rw [hsmall]

/-- The session of plugin 1 after registering `RRD_SOURCE_1` (line 159). -/
def witnessPlugin : RRD_PLUGIN := (rrd_add_src plugin1 source1).2

/-- C3 (witness): the round-trip property instantiated at a concrete
layout (header size 4, slot size 8, metadata padding 3) and the
one-datasource session of `rrdplugin1`. -/
theorem round_trip_value_witness :
    (sampleWriteFile 4 8 3 (List.replicate 4 1) (List.replicate 10 2) 2
        witnessPlugin).bytes.getD (4 + 0 * 8 + (8 - 1)) 0
      = ((sampleCycleValues 2 witnessPlugin).getD 0 0 % 256).toNat ∧
    (∀ (junk : Nat) (f : RRDFile) (value : Int) (N : Nat),
      testRRDValue 4 8 junk (some f) value N = 1 ↔
        value = ((f.bytes.getD (4 + 8 * N - 1) (junk % 256) % 256 : Nat) : Int)) ∧
    (∀ junk : Nat,
      testRRDValue 4 8 junk
          (some (sampleWriteFile 4 8 3 (List.replicate 4 1) (List.replicate 10 2) 2
            witnessPlugin))
          (((((sampleCycleValues 2 witnessPlugin).getD
              (witnessPlugin.sources.length - 1) 0 % 256).toNat : Nat) : Int))
          witnessPlugin.sources.length = 1) :=
  round_trip_value 4 8 3 (List.replicate 4 1) (List.replicate 10 2) 2 witnessPlugin 0
    (by decide) (by decide) (by decide)

theorem jsonEquals_dsJson_refl (s : RRD_SOURCE) :
    jsonEquals (dsJson s) (dsJson s) = true := by
  simp [dsJson, jsonEquals, jsonObjIncl, lookupKey]

theorem jsonArrEquals_refl_map (l : List RRD_SOURCE) :
    jsonArrEquals (l.map dsJson) (l.map dsJson) = true := by
  induction l with
  | nil => rfl
  | cons s rest ih => simp [jsonArrEquals, jsonEquals_dsJson_refl, ih]

theorem jsonEquals_json_for_plugin_refl (p : RRD_PLUGIN) :
    jsonEquals (json_for_plugin p) (json_for_plugin p) = true := by
  simp [json_for_plugin, jsonEquals, jsonObjIncl, lookupKey, jsonArrEquals_refl_map]

/-- C4: the JSON metadata document stored in the file written by a
sampling cycle is structurally equal (via `json_value_equals`, not
byte-identical) to the reference document built directly from the
session's descriptors, so `testRRDDataSource` returns 1 on that file; and
in general `testRRDDataSource` returns 1 exactly when parsing the file's
bytes from offset
`RRD_HEADER_SIZE + DATASOURCE_VALUE_SIZE * N + META_SIZE` to end of file
succeeds and `json_value_equals` holds between the parsed document and
`json_for_plugin(plugin)`. -/
theorem metadata_fidelity (HDR DVS META : Nat) (header metaBytes : List Nat)
    (g : Int) (p : RRD_PLUGIN) :
    testRRDDataSource HDR DVS META
        (some (sampleWriteFile HDR DVS META header metaBytes g p)) p
        p.sources.length = 1 ∧
    (∀ (f : RRDFile) (plugin : RRD_PLUGIN) (N : Nat),
      testRRDDataSource HDR DVS META (some f) plugin N = 1 ↔
        ∃ doc, json_parse_at f (HDR + DVS * N + META) = some doc ∧
          jsonEquals (json_for_plugin plugin) doc = true) := by
  constructor
  · simp [testRRDDataSource, sampleWriteFile, json_parse_at,
      jsonEquals_json_for_plugin_refl]
  · intro f plugin N
    simp only [testRRDDataSource]
    cases hpar : json_parse_at f (HDR + DVS * N + META) with
    | none => simp [hpar]
    | some doc =>
      simp only [hpar]
      constructor
      · intro h1
        refine ⟨doc, rfl, ?_⟩
        by_contra hne
        simp [hne] at h1
      · rintro ⟨d, hd2, he⟩
        have hdd : d = doc := by
          injection hd2 with h
          exact h.symm
        subst hdd
        simp [he]

theorem runTests_sum (HDR DVS META junk : Nat) (file : Option RRDFile)
    (plugin : RRD_PLUGIN) (number : Int) (N : Nat) (c : TestCounters) :
    (runTests HDR DVS META junk file plugin number N c).tests_passed
      + (runTests HDR DVS META junk file plugin number N c).tests_failed
    = c.tests_passed + c.tests_failed + 1 := by
  unfold runTests
  split
  · simp
    ring
  · simp
    ring

/-- C8: each `runTests` call increments exactly one of the two counters —
`tests_passed` precisely when both `testRRDValue` and `testRRDDataSource`
return nonzero, `tests_failed` otherwise — so after any sequence of calls
`tests_passed + tests_failed` equals the number of calls made (plus the
initial counter sum). -/
theorem runTests_counter_invariant (HDR DVS META junk : Nat)
    (file : Option RRDFile) (plugin : RRD_PLUGIN) (number : Int) (N : Nat)
    (c : TestCounters) :
    ((runTests HDR DVS META junk file plugin number N c).tests_passed
        = c.tests_passed + 1 ∧
      (runTests HDR DVS META junk file plugin number N c).tests_failed
        = c.tests_failed ↔
      testRRDValue HDR DVS junk file number N ≠ 0 ∧
        testRRDDataSource HDR DVS META file plugin N ≠ 0) ∧
    ((runTests HDR DVS META junk file plugin number N c).tests_failed
        = c.tests_failed + 1 ∧
      (runTests HDR DVS META junk file plugin number N c).tests_passed
        = c.tests_passed ↔
      ¬ (testRRDValue HDR DVS junk file number N ≠ 0 ∧
        testRRDDataSource HDR DVS META file plugin N ≠ 0)) ∧
    (∀ (calls : List RunArgs) (c0 : TestCounters),
      (runTestsSeq HDR DVS META calls c0).tests_passed
        + (runTestsSeq HDR DVS META calls c0).tests_failed
      = c0.tests_passed + c0.tests_failed + calls.length) := by
  refine ⟨?_, ?_, ?_⟩
  · by_cases hc : testRRDValue HDR DVS junk file number N ≠ 0 ∧
        testRRDDataSource HDR DVS META file plugin N ≠ 0
    · simp [runTests, hc]
    · simp only [runTests, if_neg hc]
      simp [hc]
  · by_cases hc : testRRDValue HDR DVS junk file number N ≠ 0 ∧
        testRRDDataSource HDR DVS META file plugin N ≠ 0
    · simp only [runTests, if_pos hc]
      simp [hc]
    · simp [runTests, hc]
  · intro calls
    induction calls with
    | nil =>
      intro c0
      simp [runTestsSeq]
    | cons a rest ih =>
      intro c0
      have hstep : runTestsSeq HDR DVS META (a :: rest) c0
          = runTestsSeq HDR DVS META rest
              (runTests HDR DVS META a.junk a.file a.plugin a.number
                a.datasource_count c0) := by
        simp [runTestsSeq, List.foldl]
      rw [hstep]
      rw [ih]
      rw [runTests_sum]
      simp
      ring

/-- C9: `testRRDValue` can return 1 only when `0 ≤ value ≤ 255`: it
compares `value` against `buffer & 0x00ff`, which always lies in
`[0, 255]`, so for every value outside that range it returns 0 regardless
of the file's contents. -/
theorem testRRDValue_byte_range (HDR DVS junk : Nat) (file : Option RRDFile)
    (value : Int) (N : Nat) :
    (testRRDValue HDR DVS junk file value N = 1 → 0 ≤ value ∧ value ≤ 255) ∧
    (value < 0 ∨ 255 < value → testRRDValue HDR DVS junk file value N = 0) := by
  cases file with
  | none => simp [testRRDValue]
  | some f =>
    simp only [testRRDValue]
    have hb : f.bytes.getD (HDR + DVS * N - 1) (junk % 256) % 256 < 256 :=
      Nat.mod_lt _ (by norm_num)
    constructor
    · intro h
      split at h
      · next hv => omega
      · exact absurd h (by norm_num)
    · intro hv
      split
      · next he => omega
      · rfl

/-- C9 (witness): at a file whose read byte is 200 the verifier returns 1
and 200 lies in `[0, 255]`; at `value = 300` it returns 0. -/
theorem testRRDValue_byte_range_witness :
    ((0 : Int) ≤ 200 ∧ (200 : Int) ≤ 255) ∧
    testRRDValue 8 8 0
        (some { bytes := List.replicate 24 7, jsonStart := 0, metaDoc := Json.num 0 })
        300 1 = 0 :=
  ⟨(testRRDValue_byte_range 8 8 0
      (some { bytes := List.replicate 24 200, jsonStart := 0, metaDoc := Json.num 0 })
      200 1).1 (by decide),
    (testRRDValue_byte_range 8 8 0
      (some { bytes := List.replicate 24 7, jsonStart := 0, metaDoc := Json.num 0 })
      300 1).2 (Or.inr (by decide))⟩

end RRDTest
